import Mathlib

/-!
# Verification of the SendPulse-style SMTP API client (Go)

Shallow embedding of the repository's client library: the token manager
(`Init`, `getToken`), the request dispatcher (`sendRequest` with its
401-refresh-and-retry recursion), and the higher-level CRUD / send methods.

Machine-level helpers that the Go standard library provides (`crypto/md5`,
`encoding/base64`, `encoding/json`) are implemented here faithfully over
`Nat` byte values, so that every definition is executable.

The HTTP layer and the filesystem are modelled by an explicit environment:
a finite script of HTTP events consumed in order by each `httpClient.Do`,
a script of write outcomes for `os.WriteFile`, and an association list for
file contents.  Every outbound request is recorded in a log, which lets the
theorems count network calls.
-/

namespace SmtpClient

/-! ## JSON values (`interface{}` payloads) -/

/-- A JSON value, standing in for Go's `interface{}` in request payloads and
parsed response bodies.  Numbers are carried as integers: no payload or
response field of this client carries a fractional value that matters. -/
inductive Jval where
  | str (s : String)
  | num (n : Int)
  | jbool (b : Bool)
  | jnull
  | arr (items : List Jval)
  | obj (fields : List (String × Jval))

/-- Minimal JSON string escaping (quote, backslash and the common control
characters).  Go's encoder additionally escapes HTML characters and other
control bytes; no theorem below depends on the byte-level rendering of a
string, only on the rendering being a fixed function of the value. -/
def escChar (c : Char) : List Char :=
  if c = '"' then ['\\', '"']
  else if c = '\\' then ['\\', '\\']
  else if c = '\n' then ['\\', 'n']
  else if c = '\r' then ['\\', 'r']
  else if c = '\t' then ['\\', 't']
  else [c]

def escape (cs : List Char) : List Char :=
  match cs with
  | [] => []
  | c :: rest => escChar c ++ escape rest

def renderString (s : String) : String :=
  String.mk ('"' :: escape s.data ++ ['"'])

mutual
/-- Rendering of a JSON value to its wire form, modelling `json.Marshal`.
Object fields are rendered in construction order (Go sorts map keys; no
theorem compares a rendered body against a string literal, and rendering
is deterministic either way, which is all the retry argument needs). -/
def Jval.render : Jval → String
  | .str s => renderString s
  | .num n => toString n
  | .jbool b => if b then "true" else "false"
  | .jnull => "null"
  | .arr items => "[" ++ renderList items ++ "]"
  | .obj fields => "\x7b" ++ renderFields fields ++ "\x7d"

def renderList : List Jval → String
  | [] => ""
  | [v] => Jval.render v
  | v :: rest => Jval.render v ++ "," ++ renderList rest

def renderFields : List (String × Jval) → String
  | [] => ""
  | [(k, v)] => renderString k ++ ":" ++ Jval.render v
  | (k, v) :: rest => renderString k ++ ":" ++ Jval.render v ++ "," ++ renderFields rest
end

/-! ## UTF-8 bytes of a string (Go's `[]byte(s)`) -/

/-- UTF-8 encoding of one character, as `Nat` byte values. -/
def charUtf8 (c : Char) : List Nat :=
  let n := c.toNat
  if n < 0x80 then [n]
  else if n < 0x800 then [0xC0 + n / 0x40, 0x80 + n % 0x40]
  else if n < 0x10000 then
    [0xE0 + n / 0x1000, 0x80 + n / 0x40 % 0x40, 0x80 + n % 0x40]
  else
    [0xF0 + n / 0x40000, 0x80 + n / 0x1000 % 0x40, 0x80 + n / 0x40 % 0x40, 0x80 + n % 0x40]

/-- UTF-8 encoding of a character sequence. -/
def utf8Bytes : List Char → List Nat
  | [] => []
  | c :: cs => charUtf8 c ++ utf8Bytes cs

/-- Go's `[]byte(s)`: the UTF-8 bytes of a string. -/
def strBytes (s : String) : List Nat := utf8Bytes s.data

/-- Does `pat` occur at the head of `s`? -/
def leadsWith : List Char → List Char → Bool
  | [], _ => true
  | _ :: _, [] => false
  | p :: ps, c :: cs => p == c && leadsWith ps cs

/-- Does `pat` occur anywhere in `s`? -/
def occursIn (pat : List Char) : List Char → Bool
  | [] => leadsWith pat []
  | c :: cs => leadsWith pat (c :: cs) || occursIn pat cs

/-- Go's `strings.Contains(s, pat)`.  Both are valid UTF-8 and the only pattern
used by the source (`"invalid_client"`) is ASCII, for which byte-level and
character-level substring search agree (UTF-8 is self-synchronising). -/
def strContains (s pat : String) : Bool := occursIn pat.data s.data

/-! ## base64 (Go's `base64.StdEncoding.EncodeToString`) -/

def b64Alphabet : List Char :=
  "ABCDEFGHIJKLMNOPQRSTUVWXYZabcdefghijklmnopqrstuvwxyz0123456789+/".data

def b64Char (n : Nat) : Char := b64Alphabet.getD n 'A'

/-- Standard base64 with padding, 3 input bytes to 4 output characters. -/
def b64Chunks : List Nat → List Char
  | b1 :: b2 :: b3 :: rest =>
    let w := b1 * 65536 + b2 * 256 + b3
    b64Char (w / 262144) :: b64Char (w / 4096 % 64) ::
      b64Char (w / 64 % 64) :: b64Char (w % 64) :: b64Chunks rest
  | [b1, b2] =>
    let w := b1 * 1024 + b2 * 4
    [b64Char (w / 4096), b64Char (w / 64 % 64), b64Char (w % 64), '=']
  | [b1] =>
    let w := b1 * 16
    [b64Char (w / 64), b64Char (w % 64), '=', '=']
  | [] => []

/-- Go's `base64.StdEncoding.EncodeToString([]byte(s))`. -/
def b64String (s : String) : String := String.mk (b64Chunks (strBytes s))

/-! ## MD5 (Go's `crypto/md5`), RFC 1321 over `Nat` words mod `2^32` -/

def M32 : Nat := 4294967296

/-- The 64 sine-derived round constants of MD5. -/
def md5K : List Nat :=
  [0xd76aa478, 0xe8c7b756, 0x242070db, 0xc1bdceee,
   0xf57c0faf, 0x4787c62a, 0xa8304613, 0xfd469501,
   0x698098d8, 0x8b44f7af, 0xffff5bb1, 0x895cd7be,
   0x6b901122, 0xfd987193, 0xa679438e, 0x49b40821,
   0xf61e2562, 0xc040b340, 0x265e5a51, 0xe9b6c7aa,
   0xd62f105d, 0x02441453, 0xd8a1e681, 0xe7d3fbc8,
   0x21e1cde6, 0xc33707d6, 0xf4d50d87, 0x455a14ed,
   0xa9e3e905, 0xfcefa3f8, 0x676f02d9, 0x8d2a4c8a,
   0xfffa3942, 0x8771f681, 0x6d9d6122, 0xfde5380c,
   0xa4beea44, 0x4bdecfa9, 0xf6bb4b60, 0xbebfbc70,
   0x289b7ec6, 0xeaa127fa, 0xd4ef3085, 0x04881d05,
   0xd9d4d039, 0xe6db99e5, 0x1fa27cf8, 0xc4ac5665,
   0xf4292244, 0x432aff97, 0xab9423a7, 0xfc93a039,
   0x655b59c3, 0x8f0ccc92, 0xffeff47d, 0x85845dd1,
   0x6fa87e4f, 0xfe2ce6e0, 0xa3014314, 0x4e0811a1,
   0xf7537e82, 0xbd3af235, 0x2ad7d2bb, 0xeb86d391]

/-- The 64 per-round left-rotation amounts of MD5. -/
def md5S : List Nat :=
  [7, 12, 17, 22, 7, 12, 17, 22, 7, 12, 17, 22, 7, 12, 17, 22,
   5, 9, 14, 20, 5, 9, 14, 20, 5, 9, 14, 20, 5, 9, 14, 20,
   4, 11, 16, 23, 4, 11, 16, 23, 4, 11, 16, 23, 4, 11, 16, 23,
   6, 10, 15, 21, 6, 10, 15, 21, 6, 10, 15, 21, 6, 10, 15, 21]

/-- 32-bit left rotation of `x < 2^32` by `c ≤ 32` bits. -/
def rotl (x c : Nat) : Nat := (x * 2 ^ c + x / 2 ^ (32 - c)) % M32

/-- Bitwise complement within 32 bits. -/
def not32 (x : Nat) : Nat := Nat.xor x 0xffffffff

def md5F (b c d : Nat) : Nat := Nat.lor (Nat.land b c) (Nat.land (not32 b) d)
def md5G (b c d : Nat) : Nat := Nat.lor (Nat.land d b) (Nat.land (not32 d) c)
def md5H (b c d : Nat) : Nat := Nat.xor (Nat.xor b c) d
def md5I (b c d : Nat) : Nat := Nat.xor c (Nat.lor b (not32 d))

/-- One MD5 round: `ws` are the 16 message words of the current chunk. -/
def md5Round (ws : List Nat) (i : Nat) : Nat × Nat × Nat × Nat → Nat × Nat × Nat × Nat
  | (a, b, c, d) =>
    let fg : Nat × Nat :=
      if i < 16 then (md5F b c d, i)
      else if i < 32 then (md5G b c d, (5 * i + 1) % 16)
      else if i < 48 then (md5H b c d, (3 * i + 5) % 16)
      else (md5I b c d, (7 * i) % 16)
    let f := (fg.1 + a + md5K.getD i 0 + ws.getD fg.2 0) % M32
    (d, (b + rotl f (md5S.getD i 0)) % M32, b, c)

/-- Group a byte list into little-endian 32-bit words, 4 bytes each. -/
def bytesToWords : List Nat → List Nat
  | b0 :: b1 :: b2 :: b3 :: rest =>
    (b0 + b1 * 256 + b2 * 65536 + b3 * 16777216) :: bytesToWords rest
  | _ => []

/-- Split a (padded) byte list into 64-byte blocks.  The fuel bounds the
number of blocks; `bs.length` suffices, since each step consumes at least
one byte, so the fuel-exhausted arm is unreachable from `splitBlocks`. -/
def splitBlocksF : Nat → List Nat → List (List Nat)
  | _, [] => []
  | 0, bs => [bs]
  | fuel + 1, bs => bs.take 64 :: splitBlocksF fuel (bs.drop 64)

def splitBlocks (bs : List Nat) : List (List Nat) := splitBlocksF bs.length bs

/-- Process one 64-byte block against the running state. -/
def md5Block (st : Nat × Nat × Nat × Nat) (block : List Nat) : Nat × Nat × Nat × Nat :=
  let ws := bytesToWords block
  let r := (List.range 64).foldl (fun s i => md5Round ws i s) st
  ((st.1 + r.1) % M32, (st.2.1 + r.2.1) % M32,
   (st.2.2.1 + r.2.2.1) % M32, (st.2.2.2 + r.2.2.2) % M32)

/-- A 64-bit quantity as 8 little-endian bytes. -/
def le64 (n : Nat) : List Nat :=
  [n % 256, n / 256 % 256, n / 65536 % 256, n / 16777216 % 256,
   n / 4294967296 % 256, n / 1099511627776 % 256,
   n / 281474976710656 % 256, n / 72057594037927936 % 256]

/-- MD5 padding: a 0x80 byte, zeros to 56 mod 64, then the bit length. -/
def md5Pad (ms : List Nat) : List Nat :=
  ms ++ 0x80 :: List.replicate ((120 - (ms.length + 1) % 64) % 64) 0
     ++ le64 (8 * ms.length % 18446744073709551616)

/-- The 16-byte MD5 digest of a byte sequence. -/
def md5Digest (ms : List Nat) : List Nat :=
  let st := (splitBlocks (md5Pad ms)).foldl md5Block
    (0x67452301, 0xefcdab89, 0x98badcfe, 0x10325476)
  [st.1 % 256, st.1 / 256 % 256, st.1 / 65536 % 256, st.1 / 16777216 % 256] ++
  [st.2.1 % 256, st.2.1 / 256 % 256, st.2.1 / 65536 % 256, st.2.1 / 16777216 % 256] ++
  [st.2.2.1 % 256, st.2.2.1 / 256 % 256, st.2.2.1 / 65536 % 256, st.2.2.1 / 16777216 % 256] ++
  [st.2.2.2 % 256, st.2.2.2 / 256 % 256, st.2.2.2 / 65536 % 256, st.2.2.2 / 16777216 % 256]

def hexDigit (n : Nat) : Char := "0123456789abcdef".data.getD n '0'

def byteHex (b : Nat) : List Char := [hexDigit (b / 16), hexDigit (b % 16)]

/-- Go's `fmt.Sprintf("%x", md5.Sum([]byte(s)))`: the lowercase hex rendering of
the MD5 digest of a string's UTF-8 bytes. -/
def md5Hex (s : String) : String :=
  String.mk ((md5Digest (strBytes s)).foldr (fun b acc => byteHex b ++ acc) [])

/-! ## JSON parsing (`json.Unmarshal`)

A recursive-descent parser for JSON.  It is used only through its
success/failure and through the fields it extracts; the one simplification
against Go's decoder is that a numeric literal's fractional/exponent part is
consumed but collapsed into the integer part (no response field read by the
client carries a fractional value).  Field names are matched exactly (Go
matches case-insensitively as a fallback; the server's field names are
exact matches). -/

def skipWs : List Char → List Char
  | c :: cs => if c = ' ' || c = '\t' || c = '\n' || c = '\r' then skipWs cs else c :: cs
  | [] => []

def hexVal (c : Char) : Option Nat :=
  if '0' ≤ c && c ≤ '9' then some (c.toNat - 48)
  else if 'a' ≤ c && c ≤ 'f' then some (c.toNat - 87)
  else if 'A' ≤ c && c ≤ 'F' then some (c.toNat - 70)
  else none

/-- Parse the body of a JSON string literal (after the opening quote),
returning the decoded characters and the rest of the input. -/
def parseStrChars : List Char → Option (List Char × List Char)
  | [] => none
  | '"' :: rest => some ([], rest)
  | '\\' :: e :: rest =>
    if e = 'u' then
      match rest with
      | h1 :: h2 :: h3 :: h4 :: rest2 => do
        let v1 ← hexVal h1
        let v2 ← hexVal h2
        let v3 ← hexVal h3
        let v4 ← hexVal h4
        let p ← parseStrChars rest2
        pure (Char.ofNat (v1 * 4096 + v2 * 256 + v3 * 16 + v4) :: p.1, p.2)
      | _ => none
    else do
      let c ←
        if e = '"' then some '"'
        else if e = '\\' then some '\\'
        else if e = '/' then some '/'
        else if e = 'b' then some (Char.ofNat 8)
        else if e = 'f' then some (Char.ofNat 12)
        else if e = 'n' then some '\n'
        else if e = 'r' then some '\r'
        else if e = 't' then some '\t'
        else none
      let p ← parseStrChars rest
      pure (c :: p.1, p.2)
  | c :: rest => do
    let p ← parseStrChars rest
    pure (c :: p.1, p.2)

/-- Accumulate decimal digits. -/
def parseDigits : List Char → Nat → Nat × List Char
  | c :: cs, acc =>
    if c.isDigit then parseDigits cs (acc * 10 + (c.toNat - 48)) else (acc, c :: cs)
  | [], acc => (acc, [])

/-- Parse a JSON number starting at `c :: cs`; the fractional part and the
exponent are consumed and discarded (see the section comment). -/
def parseNumber (c : Char) (cs : List Char) : Option (Jval × List Char) :=
  let (neg, ds) : Bool × List Char := if c = '-' then (true, cs) else (false, c :: cs)
  match ds with
  | d :: _ =>
    if d.isDigit then
      let (n, rest1) := parseDigits ds 0
      let rest2 :=
        match rest1 with
        | '.' :: f :: fs => if f.isDigit then (parseDigits (f :: fs) 0).2 else rest1
        | _ => rest1
      let rest3 :=
        match rest2 with
        | e :: es =>
          if e = 'e' || e = 'E' then
            match es with
            | s :: ss =>
              if s = '+' || s = '-' then
                match ss with
                | d2 :: _ => if d2.isDigit then (parseDigits ss 0).2 else rest2
                | [] => rest2
              else if s.isDigit then (parseDigits es 0).2
              else rest2
            | [] => rest2
          else rest2
        | [] => rest2
      some (.num (if neg then -(n : Int) else (n : Int)), rest3)
    else none
  | [] => none

mutual
/-- Parse one JSON value.  `fuel` strictly exceeds any possible nesting
depth when initialised to the input length plus one, since every nested
value consumes at least one character. -/
def parseValue (fuel : Nat) (cs : List Char) : Option (Jval × List Char) :=
  match fuel with
  | 0 => none
  | fuel + 1 =>
    match skipWs cs with
    | '{' :: rest =>
      match skipWs rest with
      | '}' :: rest2 => some (.obj [], rest2)
      | rest2 => (fun p => (Jval.obj p.1, p.2)) <$> parseMembers fuel rest2
    | '[' :: rest =>
      match skipWs rest with
      | ']' :: rest2 => some (.arr [], rest2)
      | rest2 => (fun p => (Jval.arr p.1, p.2)) <$> parseItems fuel rest2
    | '"' :: rest => (fun p => (Jval.str (String.mk p.1), p.2)) <$> parseStrChars rest
    | 't' :: 'r' :: 'u' :: 'e' :: rest => some (.jbool true, rest)
    | 'f' :: 'a' :: 'l' :: 's' :: 'e' :: rest => some (.jbool false, rest)
    | 'n' :: 'u' :: 'l' :: 'l' :: rest => some (.jnull, rest)
    | c :: rest => parseNumber c rest
    | [] => none

/-- Parse a non-empty member list of an object, up to the closing brace. -/
def parseMembers (fuel : Nat) (cs : List Char) :
    Option (List (String × Jval) × List Char) :=
  match fuel with
  | 0 => none
  | fuel + 1 =>
    match skipWs cs with
    | '"' :: rest => do
      let k ← parseStrChars rest
      match skipWs k.2 with
      | ':' :: rest2 => do
        let v ← parseValue fuel rest2
        match skipWs v.2 with
        | ',' :: rest3 =>
          (fun p => ((String.mk k.1, v.1) :: p.1, p.2)) <$> parseMembers fuel rest3
        | '}' :: rest3 => some ([(String.mk k.1, v.1)], rest3)
        | _ => none
      | _ => none
    | _ => none

/-- Parse a non-empty item list of an array, up to the closing bracket. -/
def parseItems (fuel : Nat) (cs : List Char) : Option (List Jval × List Char) :=
  match fuel with
  | 0 => none
  | fuel + 1 => do
    let v ← parseValue fuel cs
    match skipWs v.2 with
    | ',' :: rest => (fun p => (v.1 :: p.1, p.2)) <$> parseItems fuel rest
    | ']' :: rest => some ([v.1], rest)
    | _ => none
end

/-- Parse a complete JSON document; trailing non-whitespace is an error,
as in `json.Unmarshal`. -/
def parseJson (s : String) : Option Jval := do
  let p ← parseValue (s.data.length + 1) s.data
  if skipWs p.2 = [] then some p.1 else none

/-! ## Decoding into the client's typed structures -/

/-- First binding of a key in an object's field list.  (Go keeps the last
duplicate; the server's responses carry no duplicate keys.) -/
def jLookup (k : String) : List (String × Jval) → Option Jval
  | [] => none
  | (k', v) :: rest => if k' = k then some v else jLookup k rest

/-- Go map assignment `m[k] = v` viewed on an association list. -/
def jSet : List (String × Jval) → String → Jval → List (String × Jval)
  | [], k, v => [(k, v)]
  | (k', v') :: rest, k, v =>
    if k' = k then (k', v) :: rest else (k', v') :: jSet rest k v

/-- Decode an object field into a Go `string` field: missing or `null`
leaves the zero value, a string is taken verbatim, anything else is a
type-mismatch error. -/
def getStrField (fields : List (String × Jval)) (k : String) : Option String :=
  match jLookup k fields with
  | none => some ""
  | some (.str s) => some s
  | some .jnull => some ""
  | some _ => none

/-- Decode an object field into a Go `int` field. -/
def getIntField (fields : List (String × Jval)) (k : String) : Option Int :=
  match jLookup k fields with
  | none => some 0
  | some (.num n) => some n
  | some .jnull => some 0
  | some _ => none

/-- Decode an object field into a Go `map[string]interface{}` field. -/
def getMapField (fields : List (String × Jval)) (k : String) :
    Option (List (String × Jval)) :=
  match jLookup k fields with
  | none => some []
  | some (.obj f) => some f
  | some .jnull => some []
  | some _ => none

/-- The OAuth token response structure. -/
structure TokenResponse where
  AccessToken : String
  TokenType : String
  ExpiresIn : Int

/-- Model of `json.Unmarshal(resp, &tokenResp)` for `TokenResponse`: any JSON object
decodes (missing fields keep their zero values), `null` is a no-op, and any
other document shape is an error. -/
def unmarshalTokenResponse (s : String) : Option TokenResponse :=
  match parseJson s with
  | some (.obj fields) => do
    let a ← getStrField fields "access_token"
    let t ← getStrField fields "token_type"
    let e ← getIntField fields "expires_in"
    pure ⟨a, t, e⟩
  | some .jnull => some ⟨"", "", 0⟩
  | _ => none

/-- An address book. -/
structure AddressBook where
  ID : Int
  Name : String

def unmarshalAddressBook (s : String) : Option AddressBook :=
  match parseJson s with
  | some (.obj fields) => do
    let i ← getIntField fields "id"
    let n ← getStrField fields "name"
    pure ⟨i, n⟩
  | some .jnull => some ⟨0, ""⟩
  | _ => none

/-- An email address with variables. -/
structure Email where
  Email : String
  Variables : List (String × Jval)

def emailOfJval : Jval → Option Email
  | .obj fields => do
    let e ← getStrField fields "email"
    let v ← getMapField fields "variables"
    pure ⟨e, v⟩
  | .jnull => some ⟨"", []⟩
  | _ => none

def unmarshalEmail (s : String) : Option Email :=
  match parseJson s with
  | some v => emailOfJval v
  | none => none

def unmarshalEmailList (s : String) : Option (List Email) :=
  match parseJson s with
  | some (.arr items) => items.mapM emailOfJval
  | some .jnull => some []
  | _ => none

/-- An email campaign. -/
structure Campaign where
  ID : Int
  Name : String
  Status : String
  SenderName : String
  SenderEmail : String
  Subject : String

def unmarshalCampaign (s : String) : Option Campaign :=
  match parseJson s with
  | some (.obj fields) => do
    let i ← getIntField fields "id"
    let n ← getStrField fields "name"
    let st ← getStrField fields "status"
    let sn ← getStrField fields "sender_name"
    let se ← getStrField fields "sender_email"
    let su ← getStrField fields "subject"
    pure ⟨i, n, st, sn, se, su⟩
  | some .jnull => some ⟨0, "", "", "", "", ""⟩
  | _ => none

/-- An SMS campaign. -/
structure SMSCampaign where
  ID : Int
  Sender : String
  Body : String
  Status : String

def unmarshalSMSCampaign (s : String) : Option SMSCampaign :=
  match parseJson s with
  | some (.obj fields) => do
    let i ← getIntField fields "id"
    let se ← getStrField fields "sender"
    let b ← getStrField fields "body"
    let st ← getStrField fields "status"
    pure ⟨i, se, b, st⟩
  | some .jnull => some ⟨0, "", "", ""⟩
  | _ => none

/-! ## The effect model

The HTTP layer is a finite script of events, consumed in order by each
`httpClient.Do`; an exhausted script behaves as a transport failure.  Every
request handed to `Do` is appended to a log, which is how the theorems
count outbound calls.  `os.WriteFile` outcomes come from a script of
booleans (an exhausted script means success), and file contents live in an
association list.  `os.MkdirAll` is a single boolean outcome; directory
creation itself has no observable effect on the file map. -/

def APIUrl : String := "https://api.sendpulse.com"

def ErrInvalidToken : String := "Invalid token"
def ErrInvalidResponse : String := "Bad response from server"
def ErrInvalidCredentials : String := "Invalid credentials"

/-- The client's failure values.  The Go source returns `error` strings
built with `fmt.Errorf`; each constructor corresponds to one family of
construction sites, following the spec's taxonomy. -/
inductive SPError where
  /-- argument emptiness checks in the higher-level methods -/
  | validation (msg : String)
  /-- the `httpClient.Do` / body-read failures in `sendRequest` -/
  | transport (msg : String)
  /-- the 401 + `invalid_client` branch of `sendRequest` -/
  | credentials (msg : String)
  /-- the `json.Unmarshal` failures on response bodies -/
  | decode (msg : String)
  /-- the `os.WriteFile` failure at the end of `getToken` -/
  | writeFail (msg : String)
  /-- the `os.MkdirAll` failure at the start of `Init` -/
  | mkdirFail (msg : String)
  /-- the `"failed to refresh token: %w"` wrapping in `sendRequest` -/
  | refreshFail (e : SPError)
deriving DecidableEq, Repr

/-- An HTTP response as observed after `io.ReadAll(resp.Body)`. -/
structure Response where
  status : Nat
  body : String
deriving DecidableEq, Repr

/-- One scripted outcome of `httpClient.Do`. -/
inductive HttpEvent where
  | fail
  | ok (r : Response)
deriving DecidableEq, Repr

/-- An outbound HTTP request as constructed by `sendRequest`. -/
structure Request where
  url : String
  method : String
  body : Option String
  headers : List (String × String)
deriving DecidableEq, Repr

/-- The external environment: scripted HTTP outcomes and write outcomes. -/
structure Env where
  http : List HttpEvent
  writes : List Bool
  mkdirOk : Bool
deriving DecidableEq, Repr

/-- The `Client` struct.  The embedded `http.Client` (fixed 30-second
timeout) is part of the effect model, not of the state. -/
structure Client where
  UserID : String
  Secret : String
  TokenStorage : String
  Token : String
deriving DecidableEq, Repr

/-- Model of `NewClient`: credentials and storage directory, empty token. -/
def NewClient (userID secret tokenStorage : String) : Client :=
  { UserID := userID, Secret := secret, TokenStorage := tokenStorage, Token := "" }

/-- The full state an operation threads: client, environment, file system,
and the log of outbound requests. -/
structure World where
  client : Client
  env : Env
  fs : List (String × String)
  sent : List Request
deriving DecidableEq, Repr

def fsGet : List (String × String) → String → Option String
  | [], _ => none
  | (p, c) :: rest, path => if p = path then some c else fsGet rest path

def fsSet : List (String × String) → String → String → List (String × String)
  | [], path, content => [(path, content)]
  | (p, c) :: rest, path, content =>
    if p = path then (p, content) :: rest else (p, c) :: fsSet rest path content

/-- Effect of `httpClient.Do`: consume the next scripted event, logging the request. -/
def httpDo (w : World) (req : Request) : HttpEvent × World :=
  match w.env.http with
  | [] => (.fail, { w with sent := w.sent ++ [req] })
  | e :: rest =>
    (e, { w with env := { w.env with http := rest }, sent := w.sent ++ [req] })

/-- The outcome `os.WriteFile` would report next. -/
def nextWriteOk (e : Env) : Bool :=
  match e.writes with
  | [] => true
  | b :: _ => b

/-- Effect of `os.WriteFile`: on success the file's entire content is replaced. -/
def fsWrite (w : World) (path content : String) : Bool × World :=
  let ok := nextWriteOk w.env
  (ok, { w with env := { w.env with writes := w.env.writes.tail },
                fs := if ok then fsSet w.fs path content else w.fs })

/-- The headers `sendRequest` sets: a JSON content type always, and a
bearer authorization header when `useToken` is set and a token is held. -/
def mkHeaders (useToken : Bool) (token : String) : List (String × String) :=
  [("Content-Type", "application/json")] ++
    (if useToken && token != "" then [("Authorization", "Bearer " ++ token)] else [])

/-- The request `sendRequest` builds before calling `Do`. -/
def mkRequest (path method : String) (data : Option Jval) (useToken : Bool)
    (token : String) : Request :=
  { url := APIUrl ++ "/" ++ path
    method := method
    body := data.map Jval.render
    headers := mkHeaders useToken token }

/-- The credentials-grant body `getToken` sends. -/
def grantPayload (c : Client) : Jval :=
  .obj [("grant_type", .str "client_credentials"),
        ("client_id", .str c.UserID),
        ("client_secret", .str c.Secret)]

/-- `fmt.Sprintf("%x", md5.Sum([]byte(userID + "::" + secret)))`: the
fingerprint naming a credential pair's token file. -/
def hashName (userID secret : String) : String := md5Hex (userID ++ "::" ++ secret)

/-- Model of `filepath.Join(c.TokenStorage, hashName)`. -/
def tokenPath (c : Client) : String :=
  c.TokenStorage ++ "/" ++ hashName c.UserID c.Secret

/-! ## The dispatcher and the token manager

`sendRequest` retries on a 401 after refreshing the token, by calling
itself; in Go this recursion is bounded only by the server.  Here it is
bounded by a fuel parameter decremented on every call; the entry points
pass `2 * length of the HTTP script + 3`.  That fuel can never be
exhausted: along any call chain, at most two calls happen per scripted
event consumed (the dispatch observing a 401 hands control to the token
fetch, whose own dispatch consumes the next event), so every call is
entered with positive fuel and the fuel-zero arms are unreachable from
the entry points. -/

mutual
/-- Model of `(c *Client) sendRequest(path, method, data, useToken)`. -/
def sendRequest (fuel : Nat) (w : World) (path method : String) (data : Option Jval)
    (useToken : Bool) : Except SPError String × World :=
  match fuel with
  | 0 => (.error (.transport "request failed"), w)
  | fuel + 1 =>
    let req := mkRequest path method data useToken w.client.Token
    match httpDo w req with
    | (.fail, w1) => (.error (.transport "request failed"), w1)
    | (.ok r, w1) =>
      if r.status = 401 then
        if strContains r.body "invalid_client" then
          (.error (.credentials ErrInvalidCredentials), w1)
        else
          match getToken fuel w1 with
          | (.error e, w2) => (.error (.refreshFail e), w2)
          | (.ok _, w2) => sendRequest fuel w2 path method data true
      else
        (.ok r.body, w1)
termination_by structural fuel

/-- Model of `(c *Client) getToken()`. -/
def getToken (fuel : Nat) (w : World) : Except SPError Unit × World :=
  match fuel with
  | 0 => (.error (.transport "request failed"), w)
  | fuel + 1 =>
    match sendRequest fuel w "oauth/access_token" "POST" (some (grantPayload w.client)) false with
    | (.error e, w1) => (.error e, w1)
    | (.ok resp, w1) =>
      match unmarshalTokenResponse resp with
      | none => (.error (.decode "failed to parse token response"), w1)
      | some tr =>
        let w2 := { w1 with client := { w1.client with Token := tr.AccessToken } }
        match fsWrite w2 (tokenPath w2.client) tr.AccessToken with
        | (true, w3) => (.ok (), w3)
        | (false, w3) => (.error (.writeFail "write failed"), w3)
termination_by structural fuel
end

/-- Entry point: `sendRequest` with adequate fuel (see the section comment). -/
def sendRequestTop (w : World) (path method : String) (data : Option Jval)
    (useToken : Bool) : Except SPError String × World :=
  sendRequest (2 * w.env.http.length + 3) w path method data useToken

/-- Entry point: `getToken` with adequate fuel. -/
def getTokenTop (w : World) : Except SPError Unit × World :=
  getToken (2 * w.env.http.length + 3) w

/-- Model of `(c *Client) Init()`: ensure the storage directory, read the
fingerprinted token file, and fetch a token only if none is held. -/
def Init (w : World) : Except SPError Unit × World :=
  if w.env.mkdirOk then
    let w1 :=
      match fsGet w.fs (tokenPath w.client) with
      | some content => { w with client := { w.client with Token := content } }
      | none => w
    if w1.client.Token = "" then getTokenTop w1 else (.ok (), w1)
  else
    (.error (.mkdirFail "failed to create token storage directory"), w)

/-! ## Higher-level methods -/

/-- Model of `(c *Client) CreateAddressBook(name)`. -/
def CreateAddressBook (w : World) (name : String) : Except SPError AddressBook × World :=
  if name = "" then (.error (.validation "empty book name"), w)
  else
    let data := Jval.obj [("bookName", .str name)]
    match sendRequestTop w "addressbooks" "POST" (some data) true with
    | (.error e, w1) => (.error e, w1)
    | (.ok resp, w1) =>
      match unmarshalAddressBook resp with
      | none => (.error (.decode "failed to parse address book"), w1)
      | some book => (.ok book, w1)

/-- Model of `(c *Client) EditAddressBook(id, name)`. -/
def EditAddressBook (w : World) (id : Int) (name : String) : Except SPError Unit × World :=
  if id = 0 ∨ name = "" then (.error (.validation "empty book name or book id"), w)
  else
    let data := Jval.obj [("name", .str name)]
    let r := sendRequestTop w ("addressbooks/" ++ toString id) "PUT" (some data) true
    (r.1.map fun _ => (), r.2)

/-- Model of `(c *Client) RemoveAddressBook(id)`. -/
def RemoveAddressBook (w : World) (id : Int) : Except SPError Unit × World :=
  if id = 0 then (.error (.validation "empty book id"), w)
  else
    let r := sendRequestTop w ("addressbooks/" ++ toString id) "DELETE" none true
    (r.1.map fun _ => (), r.2)

/-- Model of `(c *Client) GetBookInfo(id)`. -/
def GetBookInfo (w : World) (id : Int) : Except SPError AddressBook × World :=
  if id = 0 then (.error (.validation "empty book id"), w)
  else
    match sendRequestTop w ("addressbooks/" ++ toString id) "GET" none true with
    | (.error e, w1) => (.error e, w1)
    | (.ok resp, w1) =>
      match unmarshalAddressBook resp with
      | none => (.error (.decode "failed to parse address book"), w1)
      | some book => (.ok book, w1)

/-- Model of `(c *Client) GetEmailsFromBook(id)`. -/
def GetEmailsFromBook (w : World) (id : Int) : Except SPError (List Email) × World :=
  if id = 0 then (.error (.validation "empty book id"), w)
  else
    match sendRequestTop w ("addressbooks/" ++ toString id ++ "/emails") "GET" none true with
    | (.error e, w1) => (.error e, w1)
    | (.ok resp, w1) =>
      match unmarshalEmailList resp with
      | none => (.error (.decode "failed to parse emails"), w1)
      | some emails => (.ok emails, w1)

/-- Rendering by `json.Marshal` of an `Email` value (`variables` carries `omitempty`). -/
def emailJval (e : Email) : Jval :=
  .obj ([("email", .str e.Email)] ++
    (if e.Variables.isEmpty then [] else [("variables", .obj e.Variables)]))

/-- Model of `(c *Client) AddEmails(bookID, emails)`. -/
def AddEmails (w : World) (bookID : Int) (emails : List Email) : Except SPError Unit × World :=
  if bookID = 0 ∨ emails.isEmpty then (.error (.validation "empty email list or book id"), w)
  else
    let emailsJSON := Jval.render (.arr (emails.map emailJval))
    let data := Jval.obj [("emails", .str emailsJSON)]
    let r := sendRequestTop w ("addressbooks/" ++ toString bookID ++ "/emails") "POST"
      (some data) true
    (r.1.map fun _ => (), r.2)

/-- Model of `(c *Client) RemoveEmails(bookID, emails)`. -/
def RemoveEmails (w : World) (bookID : Int) (emails : List String) :
    Except SPError Unit × World :=
  if bookID = 0 ∨ emails.isEmpty then (.error (.validation "empty email list or book id"), w)
  else
    let emailsJSON := Jval.render (.arr (emails.map .str))
    let data := Jval.obj [("emails", .str emailsJSON)]
    let r := sendRequestTop w ("addressbooks/" ++ toString bookID ++ "/emails") "DELETE"
      (some data) true
    (r.1.map fun _ => (), r.2)

/-- Model of `(c *Client) GetEmailInfo(bookID, email)`. -/
def GetEmailInfo (w : World) (bookID : Int) (email : String) :
    Except SPError Email × World :=
  if bookID = 0 ∨ email = "" then (.error (.validation "empty email or book id"), w)
  else
    match sendRequestTop w ("addressbooks/" ++ toString bookID ++ "/emails/" ++ email)
        "GET" none true with
    | (.error e, w1) => (.error e, w1)
    | (.ok resp, w1) =>
      match unmarshalEmail resp with
      | none => (.error (.decode "failed to parse email info"), w1)
      | some info => (.ok info, w1)

/-- Model of `(c *Client) UpdateEmailVariables(bookID, email, variables)`. -/
def UpdateEmailVariables (w : World) (bookID : Int) (email : String)
    (vars : List (String × Jval)) : Except SPError Unit × World :=
  if bookID = 0 ∨ email = "" ∨ vars.isEmpty then
    (.error (.validation "empty email, variables or book id"), w)
  else
    let data := Jval.obj [("email", .str email), ("variables", .obj vars)]
    let r := sendRequestTop w ("addressbooks/" ++ toString bookID ++ "/emails/variable")
      "POST" (some data) true
    (r.1.map fun _ => (), r.2)

/-- Model of `(c *Client) GetCampaignInfo(id)`. -/
def GetCampaignInfo (w : World) (id : Int) : Except SPError Campaign × World :=
  if id = 0 then (.error (.validation "empty campaign id"), w)
  else
    match sendRequestTop w ("campaigns/" ++ toString id) "GET" none true with
    | (.error e, w1) => (.error e, w1)
    | (.ok resp, w1) =>
      match unmarshalCampaign resp with
      | none => (.error (.decode "failed to parse campaign"), w1)
      | some campaign => (.ok campaign, w1)

/-- Model of `(c *Client) CreateCampaign(...)`: the body is base64-encoded; the
attachments field is added only when the list is non-empty. -/
def CreateCampaign (w : World) (senderName senderEmail subject body : String)
    (bookID : Int) (name : String) (attachments : List String) :
    Except SPError Campaign × World :=
  if senderName = "" ∨ senderEmail = "" ∨ subject = "" ∨ body = "" ∨ bookID = 0 then
    (.error (.validation "missing required campaign data"), w)
  else
    let data := Jval.obj
      ([("sender_name", .str senderName),
        ("sender_email", .str senderEmail),
        ("subject", .str subject),
        ("body", .str (b64String body)),
        ("list_id", .num bookID),
        ("name", .str name)] ++
       (if attachments = [] then []
        else [("attachments", .str (Jval.render (.arr (attachments.map .str))))]))
    match sendRequestTop w "campaigns" "POST" (some data) true with
    | (.error e, w1) => (.error e, w1)
    | (.ok resp, w1) =>
      match unmarshalCampaign resp with
      | none => (.error (.decode "failed to parse campaign"), w1)
      | some campaign => (.ok campaign, w1)

/-- Model of `(c *Client) CancelCampaign(id)`. -/
def CancelCampaign (w : World) (id : Int) : Except SPError Unit × World :=
  if id = 0 then (.error (.validation "empty campaign id"), w)
  else
    let r := sendRequestTop w ("campaigns/" ++ toString id) "DELETE" none true
    (r.1.map fun _ => (), r.2)

/-- Model of `(c *Client) SMTPSendMail(emailData)`.  `emailData` is a Go map, a
reference type: the function writes the base64-encoded HTML back into the
caller's map.  The third component of the result is that map as the caller
observes it after the call.  (The `fmt.Printf` of the response body is
console output, outside the model.) -/
def SMTPSendMail (w : World) (emailData : Option (List (String × Jval))) :
    Except SPError Unit × World × Option (List (String × Jval)) :=
  match emailData with
  | none => (.error (.validation "empty email data"), w, none)
  | some m =>
    let m1 :=
      match jLookup "html" m with
      | some (.str html) => jSet m "html" (.str (b64String html))
      | _ => m
    let emailJSON := Jval.render (.obj m1)
    let data := Jval.obj [("email", .str emailJSON)]
    let r := sendRequestTop w "smtp/emails" "POST" (some data) true
    (r.1.map fun _ => (), r.2, some m1)

/-- A phone number with variables. -/
structure Phone where
  Phone : String
  Variables : List (String × Jval)

/-- Rendering by `json.Marshal` of a `Phone` value (`variables` carries `omitempty`). -/
def phoneJval (p : Phone) : Jval :=
  .obj ([("phone", .str p.Phone)] ++
    (if p.Variables.isEmpty then [] else [("variables", .obj p.Variables)]))

/-- Model of `(c *Client) SMSAddPhones(bookID, phones)`. -/
def SMSAddPhones (w : World) (bookID : Int) (phones : List String) :
    Except SPError Unit × World :=
  if bookID = 0 ∨ phones.isEmpty then (.error (.validation "empty phones or book id"), w)
  else
    let data := Jval.obj
      [("addressBookId", .num bookID),
       ("phones", .str (Jval.render (.arr (phones.map .str))))]
    let r := sendRequestTop w "sms/numbers" "POST" (some data) true
    (r.1.map fun _ => (), r.2)

/-- Model of `(c *Client) SMSAddPhonesWithVariables(bookID, phones)`. -/
def SMSAddPhonesWithVariables (w : World) (bookID : Int) (phones : List Phone) :
    Except SPError Unit × World :=
  if bookID = 0 ∨ phones.isEmpty then (.error (.validation "empty phones or book id"), w)
  else
    let data := Jval.obj
      [("addressBookId", .num bookID),
       ("phones", .str (Jval.render (.arr (phones.map phoneJval))))]
    let r := sendRequestTop w "sms/numbers/variables" "POST" (some data) true
    (r.1.map fun _ => (), r.2)

/-- Model of `(c *Client) SMSSend(...)`.  `date` is an optional already-formatted
timestamp (`time.Time` formatting is outside the model). -/
def SMSSend (w : World) (senderName : String) (phones : List String) (body : String)
    (date : Option String) (transliterate : Bool) (route : String) :
    Except SPError Unit × World :=
  if senderName = "" ∨ phones.isEmpty ∨ body = "" then
    (.error (.validation "missing required SMS data"), w)
  else
    let data := Jval.obj
      ([("sender", .str senderName),
        ("phones", .str (Jval.render (.arr (phones.map .str)))),
        ("body", .str body),
        ("transliterate", .jbool transliterate),
        ("route", .str route)] ++
       (match date with
        | some d => [("date", .str d)]
        | none => []))
    let r := sendRequestTop w "sms/send" "POST" (some data) true
    (r.1.map fun _ => (), r.2)

/-- Model of `(c *Client) SMSAddCampaign(...)`. -/
def SMSAddCampaign (w : World) (senderName : String) (bookID : Int) (body : String)
    (date : Option String) (transliterate : Bool) :
    Except SPError SMSCampaign × World :=
  if senderName = "" ∨ bookID = 0 ∨ body = "" then
    (.error (.validation "missing required SMS campaign data"), w)
  else
    let data := Jval.obj
      ([("sender", .str senderName),
        ("addressBookId", .num bookID),
        ("body", .str body),
        ("transliterate", .jbool transliterate)] ++
       (match date with
        | some d => [("date", .str d)]
        | none => []))
    match sendRequestTop w "sms/campaigns" "POST" (some data) true with
    | (.error e, w1) => (.error e, w1)
    | (.ok resp, w1) =>
      match unmarshalSMSCampaign resp with
      | none => (.error (.decode "failed to parse SMS campaign"), w1)
      | some campaign => (.ok campaign, w1)

/-- The method allow-list of `SendRawRequest`. -/
def allowedMethods : List String := ["POST", "GET", "DELETE", "PUT", "PATCH"]

/-- Model of `(c *Client) SendRawRequest(path, method, data)`. -/
def SendRawRequest (w : World) (path method : String) (data : Option Jval) :
    Except SPError String × World :=
  if allowedMethods.any (fun m => method == m) then
    sendRequestTop w path method data true
  else
    (.error (.validation "method not allowed"), w)


/-! ## Derived definitions used by the specification theorems -/

/-- Credential fields of the client are never modified by any operation. -/
def credsEq (w' w : World) : Prop :=
  w'.client.UserID = w.client.UserID ∧ w'.client.Secret = w.client.Secret ∧
    w'.client.TokenStorage = w.client.TokenStorage

/-- The token request `getToken` issues, with the fuel `getTokenTop` uses. -/
def tokenRequest (w : World) : Except SPError String × World :=
  sendRequest (2 * w.env.http.length + 2) w "oauth/access_token" "POST"
    (some (grantPayload w.client)) false

/-- Is an `Except` result an error? -/
def isErr {α : Type} : Except SPError α → Bool
  | .error _ => true
  | .ok _ => false


/-! ## Concrete scenarios for witnesses and counterexamples -/

/-- A client as the constructor builds it. -/
def cW : Client := NewClient "u1" "s1" "tokens"

/-- The same client already holding a token in memory. -/
def cHeld : Client := { cW with Token := "SECRET" }

/-- A well-formed OAuth token response body. -/
def tokBody : String :=
  "\x7b\"access_token\":\"T1\",\"token_type\":\"Bearer\",\"expires_in\":3600\x7d"

/-- The parse of `tokBody`. -/
def trW : TokenResponse := ⟨"T1", "Bearer", 3600⟩

/-- The URL of the token endpoint. -/
def oauthUrl : String := APIUrl ++ "/oauth/access_token"

/-- A 401 body carrying the invalid-client signal. -/
def invBody : String := "\x7b\"error\":\"invalid_client\"\x7d"

/-- A server that keeps rejecting refreshed tokens with 401 before finally
accepting: the script exercising the repeated-refresh recursion. -/
def wRec : World :=
  ⟨cW, ⟨[.ok ⟨401, "x"⟩, .ok ⟨200, tokBody⟩, .ok ⟨401, "x"⟩, .ok ⟨200, tokBody⟩,
         .ok ⟨200, "done"⟩], [], true⟩, [], []⟩

/-- One expired-token 401 followed by a successful refresh and retry. -/
def wRetry : World :=
  ⟨cW, ⟨[.ok ⟨401, "expired"⟩, .ok ⟨200, tokBody⟩, .ok ⟨200, "RESULT"⟩], [], true⟩, [], []⟩

/-- A 401 carrying the invalid-client signal. -/
def wInv : World := ⟨cW, ⟨[.ok ⟨401, invBody⟩], [], true⟩, [], []⟩

/-- A non-401 error status. -/
def wOk : World := ⟨cW, ⟨[.ok ⟨500, "server error"⟩], [], true⟩, [], []⟩

/-- A client holding a token, about to make an unauthenticated call. -/
def wHeld : World := ⟨cHeld, ⟨[.ok ⟨200, "B"⟩], [], true⟩, [], []⟩

/-- A storage directory already holding a token file for `cW`. -/
def wSaved : World := ⟨cW, ⟨[], [], true⟩, [(tokenPath cW, "SAVED")], []⟩

/-- No token file; the server would answer a token fetch. -/
def wTok : World := ⟨cW, ⟨[.ok ⟨200, tokBody⟩], [], true⟩, [], []⟩

/-- The world after `wTok`'s token request has been dispatched. -/
def wTok1 : World :=
  { wTok with env := { wTok.env with http := [] },
              sent := [mkRequest "oauth/access_token" "POST" (some (grantPayload cW)) false ""] }

/-- A generic single-response environment. -/
def wE : World := ⟨cW, ⟨[.ok ⟨200, "ok"⟩], [], true⟩, [], []⟩

/-! ## Structural lemmas -/

theorem credsEq_refl (w : World) : credsEq w w := ⟨rfl, rfl, rfl⟩

theorem credsEq_trans {w1 w2 w3 : World} (h1 : credsEq w1 w2) (h2 : credsEq w2 w3) :
    credsEq w1 w3 :=
  ⟨h1.1.trans h2.1, h1.2.1.trans h2.2.1, h1.2.2.trans h2.2.2⟩

/-- Frame property of the dispatcher and the token fetch, by mutual
induction on fuel: the request log only grows, and the credential fields
of the client are never modified. -/
theorem frame_both (fuel : Nat) :
    (∀ w path method data useToken, (∃ t,
      (sendRequest fuel w path method data useToken).2.sent = w.sent ++ t) ∧
      credsEq (sendRequest fuel w path method data useToken).2 w) ∧
    (∀ w, (∃ t, (getToken fuel w).2.sent = w.sent ++ t) ∧
      credsEq (getToken fuel w).2 w) := by
  induction fuel with
  | zero =>
    constructor
    · intro w path method data useToken
      exact ⟨⟨[], by simp [sendRequest]⟩, by rw [sendRequest]; exact credsEq_refl w⟩
    · intro w
      exact ⟨⟨[], by simp [getToken]⟩, by rw [getToken]; exact credsEq_refl w⟩
  | succ fuel ih =>
    obtain ⟨ihS, ihG⟩ := ih
    constructor
    · intro w path method data useToken
      rw [sendRequest]
      simp only [httpDo]
      rcases hh : w.env.http with _ | ⟨e, rest⟩
      · exact ⟨⟨[mkRequest path method data useToken w.client.Token], rfl⟩, credsEq_refl _⟩
      · cases e with
        | fail =>
          exact ⟨⟨[mkRequest path method data useToken w.client.Token], rfl⟩, credsEq_refl _⟩
        | ok r =>
          by_cases h401 : r.status = 401
          · simp only [h401, if_true]
            cases hsig : strContains r.body "invalid_client"
            · simp only [hsig, Bool.false_eq_true, if_false]
              set w1 : World :=
                { w with env := { w.env with http := rest },
                         sent := w.sent ++ [mkRequest path method data useToken w.client.Token] }
                with hw1
              obtain ⟨⟨t1, ht1⟩, hc1⟩ := ihG w1
              rcases hgt : getToken fuel w1 with ⟨res2, w2⟩
              rw [hgt] at ht1 hc1
              have ht1' : w2.sent = w1.sent ++ t1 := by simpa using ht1
              have hc1' : credsEq w2 w1 := hc1
              cases res2 with
              | error e2 =>
                refine ⟨⟨[mkRequest path method data useToken w.client.Token] ++ t1, ?_⟩, hc1'⟩
                simp [ht1', hw1]
              | ok u2 =>
                obtain ⟨⟨t2, ht2⟩, hc2⟩ := ihS w2 path method data true
                refine ⟨⟨[mkRequest path method data useToken w.client.Token] ++ t1 ++ t2, ?_⟩,
                  credsEq_trans hc2 hc1'⟩
                simp [ht2, ht1', hw1]
            · simp only [hsig, if_pos]
              exact ⟨⟨[mkRequest path method data useToken w.client.Token], rfl⟩, credsEq_refl _⟩
          · simp only [h401, if_false]
            exact ⟨⟨[mkRequest path method data useToken w.client.Token], rfl⟩, credsEq_refl _⟩
    · intro w
      obtain ⟨⟨t, ht⟩, hc⟩ :=
        ihS w "oauth/access_token" "POST" (some (grantPayload w.client)) false
      rw [getToken]
      rcases hres : sendRequest fuel w "oauth/access_token" "POST"
        (some (grantPayload w.client)) false with ⟨res, w1⟩
      rw [hres] at ht hc
      cases res with
      | error e => exact ⟨⟨t, ht⟩, hc⟩
      | ok resp =>
        cases hu : unmarshalTokenResponse resp with
        | none => simpa [hu] using ⟨⟨t, ht⟩, hc⟩
        | some tr =>
          simp only [hu, fsWrite]
          cases hok : nextWriteOk w1.env <;> simp_all [credsEq]

theorem sendRequest_frame (fuel : Nat) :
    ∀ w path method data useToken, (∃ t,
      (sendRequest fuel w path method data useToken).2.sent = w.sent ++ t) ∧
      credsEq (sendRequest fuel w path method data useToken).2 w :=
  (frame_both fuel).1

theorem getToken_frame (fuel : Nat) :
    ∀ w, (∃ t, (getToken fuel w).2.sent = w.sent ++ t) ∧
      credsEq (getToken fuel w).2 w :=
  (frame_both fuel).2

/-- Whatever follows (refresh, retry, failure), the first request a
dispatch logs is the one it builds from its own arguments and the
currently held token. -/
theorem sendRequest_sent_shape (fuel : Nat) (w : World) (path method : String)
    (data : Option Jval) (useToken : Bool) :
    ∃ t, (sendRequest (fuel + 1) w path method data useToken).2.sent =
      w.sent ++ mkRequest path method data useToken w.client.Token :: t := by
  rw [sendRequest]
  simp only [httpDo]
  rcases hh : w.env.http with _ | ⟨e, rest⟩
  · exact ⟨[], by simp⟩
  · cases e with
    | fail => exact ⟨[], by simp⟩
    | ok r =>
      by_cases h401 : r.status = 401
      · simp only [h401, if_true]
        cases hsig : strContains r.body "invalid_client"
        · simp only [hsig, Bool.false_eq_true, if_false]
          set w1 : World :=
            { w with env := { w.env with http := rest },
                     sent := w.sent ++ [mkRequest path method data useToken w.client.Token] }
            with hw1
          obtain ⟨⟨t1, ht1⟩, -⟩ := (frame_both fuel).2 w1
          rcases hgt : getToken fuel w1 with ⟨res2, w2⟩
          rw [hgt] at ht1
          have ht1' : w2.sent = w1.sent ++ t1 := by simpa using ht1
          cases res2 with
          | error e2 => exact ⟨t1, by simp [ht1', hw1]⟩
          | ok u2 =>
            obtain ⟨⟨t2, ht2⟩, -⟩ := (frame_both fuel).1 w2 path method data true
            exact ⟨t1 ++ t2, by simp [ht2, ht1', hw1]⟩
        · simp only [hsig, if_pos]
          exact ⟨[], by simp⟩
      · simp only [h401, if_false]
        exact ⟨[], by simp⟩

theorem fsGet_fsSet (fs : List (String × String)) (p c : String) :
    fsGet (fsSet fs p c) p = some c := by
  induction fs with
  | nil => simp [fsSet, fsGet]
  | cons hd tl ih =>
    rcases hd with ⟨q, d⟩
    by_cases h : q = p <;> simp [fsSet, fsGet, h, ih]

theorem charUtf8_length_pos (c : Char) : 1 ≤ (charUtf8 c).length := by
  simp only [charUtf8]
  split_ifs <;> simp

theorem utf8Bytes_length (cs : List Char) : cs.length ≤ (utf8Bytes cs).length := by
  induction cs with
  | nil => simp [utf8Bytes]
  | cons c cs ih =>
    simp only [utf8Bytes, List.length_append, List.length_cons]
    have := charUtf8_length_pos c
    omega

theorem b64Chunks_length (bs : List Nat) :
    (b64Chunks bs).length = 4 * ((bs.length + 2) / 3) := by
  match bs with
  | b1 :: b2 :: b3 :: rest =>
    simp only [b64Chunks, List.length_cons]
    rw [b64Chunks_length rest]
    omega
  | [b1, b2] => simp [b64Chunks]
  | [b1] => simp [b64Chunks]
  | [] => simp [b64Chunks]

/-- Base64 strictly lengthens every non-empty string, so encoding is never
the identity on a non-empty input. -/
theorem b64String_ne (h : String) (hne : h ≠ "") : b64String h ≠ h := by
  intro heq
  have hdata : h.data ≠ [] := by
    intro hd
    apply hne
    cases h
    simp only at hd
    subst hd
    rfl
  have h1 : h.data.length ≤ (strBytes h).length := utf8Bytes_length h.data
  have h2 : 0 < h.data.length := List.length_pos.mpr hdata
  have hlen : (b64String h).length = 4 * (((strBytes h).length + 2) / 3) := by
    show (b64Chunks (strBytes h)).length = _
    exact b64Chunks_length (strBytes h)
  have hlexp : (b64String h).length = h.length := by rw [heq]
  have hhl : h.length = h.data.length := rfl
  omega

theorem jLookup_jSet (m : List (String × Jval)) (k : String) (v : Jval) :
    jLookup k (jSet m k v) = some v := by
  induction m with
  | nil => simp [jSet, jLookup]
  | cons hd tl ih =>
    rcases hd with ⟨k', v'⟩
    by_cases h : k' = k <;> simp [jSet, jLookup, h, ih]


/-! ## The claims -/

/-- C1 (amended): a dispatch whose response has status 401 without the
invalid-client signal triggers a token fetch and a retry; when the fetch
succeeds (non-401 token response that parses, write succeeding) and the
retried request returns status 200, exactly one token fetch and exactly
one retried request occur — the log is precisely the original request, the
token-endpoint request, and the retry carrying the refreshed token — and
the call returns the retried response's body. -/
theorem sendRequest_401_refresh_retry (w : World) (path method : String)
    (data : Option Jval) (useToken : Bool) (r1 r2 r3 : Response)
    (rest : List HttpEvent) (tr : TokenResponse)
    (hh : w.env.http = .ok r1 :: .ok r2 :: .ok r3 :: rest)
    (h401 : r1.status = 401)
    (hsig : strContains r1.body "invalid_client" = false)
    (h2 : r2.status ≠ 401)
    (hparse : unmarshalTokenResponse r2.body = some tr)
    (hwr : w.env.writes = [])
    (h3 : r3.status = 200)
    (hsent : w.sent = []) :
    (sendRequestTop w path method data useToken).1 = .ok r3.body ∧
    (sendRequestTop w path method data useToken).2.sent =
      [mkRequest path method data useToken w.client.Token,
       mkRequest "oauth/access_token" "POST" (some (grantPayload w.client)) false w.client.Token,
       mkRequest path method data true tr.AccessToken] := by
  unfold sendRequestTop
  rw [hh]
  simp only [List.length_cons]
  rw [sendRequest]
  simp only [httpDo, hh, h401, if_true, hsig, Bool.false_eq_true, if_false]
  rw [getToken]
  rw [sendRequest]
  simp only [httpDo, h2, if_false, hparse, fsWrite, nextWriteOk, hwr]
  rw [sendRequest]
  simp only [httpDo]
  simp [h3, hsent]


/-- Witness for C1 at a concrete expired-token 401 with successful refresh
and a 200 retry. -/
theorem sendRequest_401_refresh_retry_witness :
    (sendRequestTop wRetry "addressbooks" "GET" none true).1 = .ok "RESULT" ∧
    (sendRequestTop wRetry "addressbooks" "GET" none true).2.sent =
      [mkRequest "addressbooks" "GET" none true wRetry.client.Token,
       mkRequest "oauth/access_token" "POST" (some (grantPayload wRetry.client)) false
         wRetry.client.Token,
       mkRequest "addressbooks" "GET" none true trW.AccessToken] :=
  sendRequest_401_refresh_retry wRetry "addressbooks" "GET" none true
    ⟨401, "expired"⟩ ⟨200, tokBody⟩ ⟨200, "RESULT"⟩ [] trW rfl rfl rfl (by decide)
    rfl rfl rfl rfl

/-- Counterexample for C1 as stated: with a server that rejects the
refreshed token with another 401 (without the invalid-client signal), one
dispatch performs two token fetches, not exactly one. -/
theorem sendRequest_double_refresh_counterexample :
    wRec.env.http.head? = some (.ok ⟨401, "x"⟩) ∧
    strContains "x" "invalid_client" = false ∧
    ((sendRequestTop wRec "addressbooks" "GET" none true).2.sent.filter
        (fun r => r.url == oauthUrl)).length = 2 ∧
    (sendRequestTop wRec "addressbooks" "GET" none true).1 = .ok "done" :=
  ⟨rfl, rfl, rfl, rfl⟩

/-- C2: a dispatch whose response has status 401 and whose body contains
the invalid-client signal fails with the credentials error and performs no
token refresh: the final world shows exactly the one original request in
the log, and client state and file system unchanged. -/
theorem sendRequest_401_invalid_client (w : World) (path method : String)
    (data : Option Jval) (useToken : Bool) (r : Response) (rest : List HttpEvent)
    (hh : w.env.http = .ok r :: rest) (h401 : r.status = 401)
    (hsig : strContains r.body "invalid_client" = true) (hsent : w.sent = []) :
    sendRequestTop w path method data useToken =
      (.error (.credentials ErrInvalidCredentials),
       { w with env := { w.env with http := rest },
                sent := [mkRequest path method data useToken w.client.Token] }) := by
  unfold sendRequestTop
  rw [hh]
  simp only [List.length_cons]
  rw [sendRequest]
  simp only [httpDo, hh, hsent, List.nil_append]
  simp [h401, hsig]


/-- Witness for C2 at a concrete invalid-client 401. -/
theorem sendRequest_401_invalid_client_witness :
    sendRequestTop wInv "addressbooks" "GET" none true =
      (.error (.credentials ErrInvalidCredentials),
       { wInv with env := { wInv.env with http := [] },
                   sent := [mkRequest "addressbooks" "GET" none true wInv.client.Token] }) :=
  sendRequest_401_invalid_client wInv "addressbooks" "GET" none true ⟨401, invBody⟩ []
    rfl rfl rfl rfl

/-- C3: for every client as built by the constructor (empty in-memory
token), when the storage holds a non-empty token file under the credential
pair's fingerprint, `Init` adopts the file's contents as the in-memory
token and returns success with no other change (in particular, no request
is sent); when the file is absent or empty, `Init` delegates to the token
fetch. -/
theorem Init_token_cache (w : World)
    (hclient : w.client = NewClient w.client.UserID w.client.Secret w.client.TokenStorage)
    (hmk : w.env.mkdirOk = true) :
    (∀ content, fsGet w.fs (tokenPath w.client) = some content → content ≠ "" →
       Init w = (.ok (), { w with client := { w.client with Token := content } })) ∧
    (fsGet w.fs (tokenPath w.client) = none ∨ fsGet w.fs (tokenPath w.client) = some "" →
       Init w = getTokenTop w) := by
  have htok : w.client.Token = "" := by rw [hclient]; rfl
  constructor
  · intro content hget hne
    unfold Init
    simp only [hmk, if_true, hget]
    rw [if_neg]
    exact hne
  · intro hget
    unfold Init
    rcases hget with hget | hget
    · simp only [hmk, if_true, hget]
      rw [if_pos htok]
    · simp only [hmk, if_true, hget]
      have hcl : { w.client with Token := "" } = w.client := by rw [← htok]
      have hww : { w with client := { w.client with Token := "" } } = w := by rw [hcl]
      rw [hww]


/-- Witness for C3: a saved token is adopted without any request; with no
file, `Init` is the token fetch. -/
theorem Init_token_cache_witness :
    Init wSaved = (.ok (), { wSaved with client := { wSaved.client with Token := "SAVED" } }) ∧
    Init wTok = getTokenTop wTok := by
  constructor
  · exact (Init_token_cache wSaved rfl rfl).1 "SAVED" rfl (by decide)
  · exact (Init_token_cache wTok rfl rfl).2 (Or.inl rfl)

/-- C4 (amended): the fingerprint is a deterministic pure function of the
string `clientId ++ "::" ++ secret`; pairs with equal joined strings (in
particular, equal pairs) always receive the same fingerprint.  Distinct
pairs are not guaranteed distinct fingerprints (see the counterexample). -/
theorem hashName_deterministic (u1 s1 u2 s2 : String)
    (h : u1 ++ "::" ++ s1 = u2 ++ "::" ++ s2) :
    hashName u1 s1 = hashName u2 s2 := by
  unfold hashName
  rw [h]


/-- Witness for C4: the same pair always receives the same fingerprint. -/
theorem hashName_deterministic_witness : hashName "u1" "s1" = hashName "u1" "s1" :=
  hashName_deterministic "u1" "s1" "u1" "s1" rfl

/-- Counterexample for C4 as stated: two distinct credential pairs whose
joined strings coincide receive the same fingerprint. -/
theorem hashName_collision :
    hashName "a::b" "c" = hashName "a" "b::c" ∧ ("a::b", "c") ≠ ("a", "b::c") :=
  ⟨rfl, by decide⟩

/-- C5: a successful token fetch stores the parsed token both in the
client's memory and as the entire content of the fingerprinted file; and
the fetch fails exactly when the dispatch of the token request errors, the
response body does not parse, or the file write fails (on a failed write
the in-memory token is nevertheless already replaced). -/
theorem getToken_spec (w : World) :
    (∀ body w1 tr, tokenRequest w = (.ok body, w1) →
       unmarshalTokenResponse body = some tr → nextWriteOk w1.env = true →
       getTokenTop w = (.ok (),
         { w1 with client := { w1.client with Token := tr.AccessToken },
                   env := { w1.env with writes := w1.env.writes.tail },
                   fs := fsSet w1.fs (tokenPath w1.client) tr.AccessToken }) ∧
       (getTokenTop w).2.client.Token = tr.AccessToken ∧
       fsGet (getTokenTop w).2.fs (tokenPath w.client) = some tr.AccessToken) ∧
    (∀ e w1, tokenRequest w = (.error e, w1) → getTokenTop w = (.error e, w1)) ∧
    (∀ body w1, tokenRequest w = (.ok body, w1) → unmarshalTokenResponse body = none →
       getTokenTop w = (.error (.decode "failed to parse token response"), w1)) ∧
    (∀ body w1 tr, tokenRequest w = (.ok body, w1) →
       unmarshalTokenResponse body = some tr → nextWriteOk w1.env = false →
       getTokenTop w = (.error (.writeFail "write failed"),
         { w1 with client := { w1.client with Token := tr.AccessToken },
                   env := { w1.env with writes := w1.env.writes.tail } }) ∧
       (getTokenTop w).2.client.Token = tr.AccessToken) ∧
    (isErr (getTokenTop w).1 = true ↔
       isErr (tokenRequest w).1 = true ∨
       (∃ body, (tokenRequest w).1 = .ok body ∧ unmarshalTokenResponse body = none) ∨
       (∃ body tr, (tokenRequest w).1 = .ok body ∧ unmarshalTokenResponse body = some tr ∧
          nextWriteOk (tokenRequest w).2.env = false)) := by
  have hcreds := (sendRequest_frame (2 * w.env.http.length + 2) w "oauth/access_token" "POST"
    (some (grantPayload w.client)) false).2
  refine ⟨?_, ?_, ?_, ?_, ?_⟩
  · intro body w1 tr hres hparse hok
    unfold tokenRequest at hres
    rw [hres] at hcreds
    have hc : credsEq w1 w := hcreds
    have hpath : tokenPath { w1.client with Token := tr.AccessToken } = tokenPath w.client := by
      simp only [tokenPath, hashName, hc.1, hc.2.1, hc.2.2]
    unfold getTokenTop
    rw [getToken, hres]
    simp only [hparse, fsWrite, hok]
    refine ⟨?_, ?_, ?_⟩
    · rfl
    · trivial
    · rw [hpath]
      exact fsGet_fsSet w1.fs (tokenPath w.client) tr.AccessToken
  · intro e w1 hres
    unfold tokenRequest at hres
    unfold getTokenTop
    rw [getToken, hres]
  · intro body w1 hres hparse
    unfold tokenRequest at hres
    unfold getTokenTop
    rw [getToken, hres]
    simp [hparse]
  · intro body w1 tr hres hparse hok
    unfold tokenRequest at hres
    unfold getTokenTop
    rw [getToken, hres]
    simp only [hparse, fsWrite, hok]
    exact ⟨rfl, trivial⟩
  · rcases hres : tokenRequest w with ⟨res, w1⟩
    have hres' := hres
    unfold tokenRequest at hres'
    unfold getTokenTop
    rw [getToken, hres']
    cases res with
    | error e => simp [isErr]
    | ok body =>
      cases hu : unmarshalTokenResponse body with
      | none => simp [isErr, hu]
      | some tr =>
        simp only [hu, fsWrite]
        cases hok : nextWriteOk w1.env <;> simp [isErr, hok, hu]


/-- Witness for C5 at a concrete successful fetch: token in memory and in
the fingerprinted file. -/
theorem getToken_spec_witness :
    getTokenTop wTok = (.ok (),
      { wTok1 with client := { wTok1.client with Token := trW.AccessToken },
                   env := { wTok1.env with writes := wTok1.env.writes.tail },
                   fs := fsSet wTok1.fs (tokenPath wTok1.client) trW.AccessToken }) ∧
    fsGet (getTokenTop wTok).2.fs (tokenPath wTok.client) = some "T1" := by
  have h := (getToken_spec wTok).1 tokBody wTok1 trW rfl rfl rfl
  exact ⟨h.1, h.2.2⟩

/-- C6: every higher-level method with required arguments, when invoked
with one of them at its zero value, fails with a validation error and
returns the world unchanged: no outbound request is sent. -/
theorem validation_fail_fast (w : World) :
    (CreateAddressBook w "" = (.error (.validation "empty book name"), w)) ∧
    (∀ id name, id = 0 ∨ name = "" →
       EditAddressBook w id name = (.error (.validation "empty book name or book id"), w)) ∧
    (RemoveAddressBook w 0 = (.error (.validation "empty book id"), w)) ∧
    (GetBookInfo w 0 = (.error (.validation "empty book id"), w)) ∧
    (GetEmailsFromBook w 0 = (.error (.validation "empty book id"), w)) ∧
    (∀ bookID emails, bookID = 0 ∨ emails = ([] : List Email) →
       AddEmails w bookID emails = (.error (.validation "empty email list or book id"), w)) ∧
    (∀ bookID emails, bookID = 0 ∨ emails = ([] : List String) →
       RemoveEmails w bookID emails = (.error (.validation "empty email list or book id"), w)) ∧
    (∀ bookID email, bookID = 0 ∨ email = "" →
       GetEmailInfo w bookID email = (.error (.validation "empty email or book id"), w)) ∧
    (∀ bookID email vs, bookID = 0 ∨ email = "" ∨ vs = ([] : List (String × Jval)) →
       UpdateEmailVariables w bookID email vs =
         (.error (.validation "empty email, variables or book id"), w)) ∧
    (GetCampaignInfo w 0 = (.error (.validation "empty campaign id"), w)) ∧
    (∀ sn se su b id nm ats, sn = "" ∨ se = "" ∨ su = "" ∨ b = "" ∨ id = 0 →
       CreateCampaign w sn se su b id nm ats =
         (.error (.validation "missing required campaign data"), w)) ∧
    (CancelCampaign w 0 = (.error (.validation "empty campaign id"), w)) ∧
    (SMTPSendMail w none = (.error (.validation "empty email data"), w, none)) ∧
    (∀ bookID phones, bookID = 0 ∨ phones = ([] : List String) →
       SMSAddPhones w bookID phones = (.error (.validation "empty phones or book id"), w)) ∧
    (∀ bookID phones, bookID = 0 ∨ phones = ([] : List Phone) →
       SMSAddPhonesWithVariables w bookID phones =
         (.error (.validation "empty phones or book id"), w)) ∧
    (∀ sn phones b date tl route, sn = "" ∨ phones = ([] : List String) ∨ b = "" →
       SMSSend w sn phones b date tl route =
         (.error (.validation "missing required SMS data"), w)) ∧
    (∀ sn bookID b date tl, sn = "" ∨ bookID = 0 ∨ b = "" →
       SMSAddCampaign w sn bookID b date tl =
         (.error (.validation "missing required SMS campaign data"), w)) := by
  refine ⟨by simp [CreateAddressBook], ?_, by simp [RemoveAddressBook],
    by simp [GetBookInfo], by simp [GetEmailsFromBook], ?_, ?_, ?_, ?_,
    by simp [GetCampaignInfo], ?_, by simp [CancelCampaign], rfl, ?_, ?_, ?_, ?_⟩
  · intro id name h
    rcases h with h | h <;> simp [EditAddressBook, h]
  · intro bookID emails h
    rcases h with h | h <;> simp [AddEmails, h]
  · intro bookID emails h
    rcases h with h | h <;> simp [RemoveEmails, h]
  · intro bookID email h
    rcases h with h | h <;> simp [GetEmailInfo, h]
  · intro bookID email vs h
    rcases h with h | h | h <;> simp [UpdateEmailVariables, h]
  · intro sn se su b id nm ats h
    rcases h with h | h | h | h | h <;> simp [CreateCampaign, h]
  · intro bookID phones h
    rcases h with h | h <;> simp [SMSAddPhones, h]
  · intro bookID phones h
    rcases h with h | h <;> simp [SMSAddPhonesWithVariables, h]
  · intro sn phones b date tl route h
    rcases h with h | h | h <;> simp [SMSSend, h]
  · intro sn bookID b date tl h
    rcases h with h | h | h <;> simp [SMSAddCampaign, h]


/-- Witness for C6 at concrete zero-valued arguments across the method
families. -/
theorem validation_fail_fast_witness :
    EditAddressBook wE 0 "name" = (.error (.validation "empty book name or book id"), wE) ∧
    AddEmails wE 7 [] = (.error (.validation "empty email list or book id"), wE) ∧
    CreateCampaign wE "" "e@x" "s" "b" 3 "n" [] =
      (.error (.validation "missing required campaign data"), wE) ∧
    SMSSend wE "snd" [] "body" none false "" =
      (.error (.validation "missing required SMS data"), wE) := by
  refine ⟨?_, ?_, ?_, ?_⟩
  · exact (validation_fail_fast wE).2.1 0 "name" (Or.inl rfl)
  · exact (validation_fail_fast wE).2.2.2.2.2.1 7 [] (Or.inr rfl)
  · exact (validation_fail_fast wE).2.2.2.2.2.2.2.2.2.2.1 "" "e@x" "s" "b" 3 "n" []
      (Or.inl rfl)
  · exact (validation_fail_fast wE).2.2.2.2.2.2.2.2.2.2.2.2.2.2.2.1 "snd" [] "body"
      none false "" (Or.inr (Or.inl rfl))

/-- C7: `SendRawRequest` rejects every method outside the allow-list
\x7bPOST, GET, DELETE, PUT, PATCH\x7d with a validation error before any network
call, and for every allow-listed method it defers to the dispatcher. -/
theorem SendRawRequest_allowlist (w : World) (path method : String) (data : Option Jval) :
    (method ∉ allowedMethods →
       SendRawRequest w path method data = (.error (.validation "method not allowed"), w)) ∧
    (method ∈ allowedMethods →
       SendRawRequest w path method data = sendRequestTop w path method data true) := by
  constructor <;> intro h <;> unfold SendRawRequest
  · rw [if_neg]
    intro hc
    apply h
    rw [List.any_eq_true] at hc
    obtain ⟨m, hm, he⟩ := hc
    rw [show method = m from by simpa using he]
    exact hm
  · rw [if_pos]
    rw [List.any_eq_true]
    exact ⟨method, h, by simp⟩


/-- Witness for C7: TRACE is rejected before any call, PATCH defers to the
dispatcher. -/
theorem SendRawRequest_allowlist_witness :
    SendRawRequest wE "some/path" "TRACE" none =
      (.error (.validation "method not allowed"), wE) ∧
    SendRawRequest wE "some/path" "PATCH" none =
      sendRequestTop wE "some/path" "PATCH" none true :=
  ⟨(SendRawRequest_allowlist wE "some/path" "TRACE" none).1 (by decide),
   (SendRawRequest_allowlist wE "some/path" "PATCH" none).2 (by decide)⟩


/-- C8: for every dispatch whose response status is not 401, the call
returns the raw response body without error, whatever the status code:
the world records exactly the one request, and client, file system and
token are untouched. -/
theorem sendRequest_non401 (w : World) (path method : String) (data : Option Jval)
    (useToken : Bool) (r : Response) (rest : List HttpEvent)
    (hh : w.env.http = .ok r :: rest) (hs : r.status ≠ 401) (hsent : w.sent = []) :
    sendRequestTop w path method data useToken =
      (.ok r.body,
       { w with env := { w.env with http := rest },
                sent := [mkRequest path method data useToken w.client.Token] }) := by
  unfold sendRequestTop
  rw [hh]
  simp only [List.length_cons]
  rw [sendRequest]
  simp only [httpDo, hh, hsent, List.nil_append]
  simp [hs]

/-- Witness for C8: a 500 response is returned as a plain body. -/
theorem sendRequest_non401_witness :
    sendRequestTop wOk "addressbooks" "GET" none true =
      (.ok "server error",
       { wOk with env := { wOk.env with http := [] },
                  sent := [mkRequest "addressbooks" "GET" none true wOk.client.Token] }) :=
  sendRequest_non401 wOk "addressbooks" "GET" none true ⟨500, "server error"⟩ []
    rfl (by decide) rfl

/-- C9: for every dispatch with `useToken=false`, the outgoing request it
constructs carries only the JSON content-type header and no authorization
header, whatever token the client holds. -/
theorem sendRequest_noAuth (w : World) (path method : String) (data : Option Jval)
    (hsent : w.sent = []) :
    ((sendRequestTop w path method data false).2.sent.head?).map Request.headers =
      some [("Content-Type", "application/json")] := by
  unfold sendRequestTop
  obtain ⟨t, ht⟩ := sendRequest_sent_shape (2 * w.env.http.length + 2) w path method data false
  have hfe : (2 : Nat) * w.env.http.length + 3 = (2 * w.env.http.length + 2) + 1 := rfl
  rw [hfe, ht, hsent]
  simp [mkRequest, mkHeaders]


/-- Witness for C9: even with a non-empty in-memory token, the request of
an unauthenticated dispatch carries no authorization header. -/
theorem sendRequest_noAuth_witness :
    ((sendRequestTop wHeld "emails" "GET" none false).2.sent.head?).map Request.headers =
      some [("Content-Type", "application/json")] :=
  sendRequest_noAuth wHeld "emails" "GET" none rfl

/-- C10 (amended): `SMTPSendMail` writes the base64 encoding of the HTML
entry back into the caller's map before sending; for a non-empty HTML
string the encoding differs from the original, so the caller's map no
longer holds the original string — with the empty string the encoding is
the empty string again and the map is unchanged. -/
theorem SMTPSendMail_encodes_html (w : World) (m : List (String × Jval)) (html : String)
    (hhtml : jLookup "html" m = some (.str html)) :
    (SMTPSendMail w (some m)).2.2 = some (jSet m "html" (.str (b64String html))) ∧
    jLookup "html" (jSet m "html" (.str (b64String html))) =
      some (.str (b64String html)) ∧
    (html ≠ "" → Jval.str (b64String html) ≠ Jval.str html) := by
  refine ⟨?_, jLookup_jSet m "html" _, ?_⟩
  · unfold SMTPSendMail
    simp [hhtml]
  · intro hne heq
    injection heq with heq'
    exact b64String_ne html hne heq'


/-- Witness for C10 at a concrete non-empty HTML string. -/
theorem SMTPSendMail_encodes_html_witness :
    (SMTPSendMail wE (some [("html", Jval.str "<b>hi</b>")])).2.2 =
      some (jSet [("html", Jval.str "<b>hi</b>")] "html" (.str (b64String "<b>hi</b>"))) ∧
    jLookup "html" (jSet [("html", Jval.str "<b>hi</b>")] "html"
        (.str (b64String "<b>hi</b>"))) = some (.str (b64String "<b>hi</b>")) ∧
    Jval.str (b64String "<b>hi</b>") ≠ Jval.str "<b>hi</b>" := by
  have h := SMTPSendMail_encodes_html wE [("html", Jval.str "<b>hi</b>")] "<b>hi</b>" rfl
  exact ⟨h.1, h.2.1, h.2.2 (by decide)⟩

/-- Counterexample for C10 as stated: with an empty HTML string the map
entry is replaced by its encoding, which is the very same empty string, so
after a successful call the caller's map still holds the original HTML
string. -/
theorem SMTPSendMail_empty_html_kept :
    jLookup "html" [("html", Jval.str "")] = some (.str "") ∧
    (SMTPSendMail wE (some [("html", Jval.str "")])).2.2 = some [("html", Jval.str "")] ∧
    isErr (SMTPSendMail wE (some [("html", Jval.str "")])).1 = false :=
  ⟨rfl, rfl, rfl⟩


end SmtpClient
